import Mathlib

/-!
Shallow embedding of the commit0 agent orchestrator
(src/agent/run_agent.py, src/agent/agents.py, src/baselines/run_aider.py).

Pure computations (work-unit planning, log-directory derivation, dataset
filtering, the tenacity wait schedule) are translated as Lean functions.
Stateful parts (git branch setup, the sequential work-unit loop, the
stdout/stderr redirection in AiderAgents.run) are translated as explicit
state passing; fallible steps return Except.  External collaborators
(message builder, lint-command builder, the agent call itself, subprocess
outcomes) are parameters of the model.
-/

namespace Commit0

/-! ## Test-file planning (run_agent.py lines 62-64)

`test_files = sorted(list(set([i.split(":")[0] for i in test_files_str])))` -/

/-- Python `i.split(":")[0]`: the portion of a test identifier before the first
colon (the whole identifier when it has no colon). -/
def testPath (i : String) : String := String.mk (i.data.takeWhile (fun c => c != ':'))

/-- Python `sorted(list(set(l)))`: the sorted list of the distinct elements of `l`. -/
def sortedDedup (l : List String) : List String :=
  List.insertionSort (· ≤ ·) l.dedup

/-- Line 64: distinct test-file paths of the repository, sorted. -/
def test_files (ids : List String) : List String :=
  sortedDedup (ids.map testPath)

/-! ## Log-directory name derivation (run_agent.py lines 102, 127)

`f.replace(".py", "").replace("/", "__")` -/

/-- Python `s.replace(".py", "")` on the character list of `s`: scan left to
right, deleting each (non-overlapping) occurrence of `.py`. -/
def stripPy : List Char → List Char
  | [] => []
  | [c] => [c]
  | [c, p] => [c, p]
  | c :: p :: y :: rest =>
    if c = '.' ∧ p = 'p' ∧ y = 'y' then stripPy rest
    else c :: stripPy (p :: y :: rest)

/-- Python `s.replace("/", "__")` on the character list of `s`. -/
def slashSub : List Char → List Char
  | [] => []
  | c :: rest => if c = '/' then '_' :: '_' :: slashSub rest else c :: slashSub rest

/-- Python `f.replace(".py", "").replace("/", "__")` as a function on strings. -/
def logName (s : String) : String := String.mk (slashSub (stripPy s.data))

/-- The constant `RUN_AIDER_LOG_DIR` (commit0.harness.constants): external path constant,
modelled as a fixed segment list; its exact value is immaterial here. -/
def RUN_AIDER_LOG_DIR : List String := ["run_aider"]

/-! ## Work units (run_agent.py lines 96-130) -/

/-- One agent invocation: the five arguments passed to `AiderAgents.run`.
Log directories are modelled as lists of path segments. -/
structure WorkUnit where
  message : String
  test_cmd : String
  lint_cmd : String
  fnames : List String
  log_dir : List String
deriving DecidableEq

/-- Line 99-101: `f"python -m commit0 test {repo_path} {test_file} --branch {run_id}"`. -/
def test_cmd_for (repo_path run_id tf : String) : String :=
  "python -m commit0 test " ++ repo_path ++ " " ++ tf ++ " --branch " ++ run_id

/-- Lines 96-112 (test-feedback mode): one work unit per entry of
`test_files ids`, carrying the full target-edit-file list, a per-file test
command, the shared lint command, and a per-file log directory.
`msg` is the external message builder `get_message(.., test_file=tf)`. -/
def planWithTests (msg : String → String) (lint repo_path run_id : String)
    (targets ids : List String) : List WorkUnit :=
  (test_files ids).map fun tf =>
    { message := msg tf
      test_cmd := test_cmd_for repo_path run_id tf
      lint_cmd := lint
      fnames := targets
      log_dir := RUN_AIDER_LOG_DIR ++ ["with_tests", logName tf] }

/-- Lines 113-130 (no-test mode): one work unit per target-edit file, in list
order, each carrying an empty test command, the shared repository message
`msg`, and a one-element file list. -/
def planNoTests (msg lint : String) (targets : List String) : List WorkUnit :=
  targets.map fun f =>
    { message := msg
      test_cmd := ""
      lint_cmd := lint
      fnames := [f]
      log_dir := RUN_AIDER_LOG_DIR ++ ["no_tests", logName f] }

/-- Run configuration fields consumed by `run_agent_for_repo`. -/
structure AgentConfig where
  agent_name : String
  model_name : String
  max_iteration : Nat
  run_tests : Bool
  use_lint_info : Bool
deriving DecidableEq

/-- Line 96: mode dispatch of the per-repository loop. -/
def plan (cfg : AgentConfig) (msgT : String → String) (msgR lint repo_path run_id : String)
    (targets ids : List String) : List WorkUnit :=
  if cfg.run_tests then planWithTests msgT lint repo_path run_id targets ids
  else planNoTests msgR lint targets

/-! ## Sequential work-unit execution (the bodies of the loops at lines 98 and 126)

Both loops call `agent.run` once per unit with no surrounding try/except, so an
exception raised by an invocation propagates and ends the loop.  `invoke`
abstracts the outcome of one full `agent.run` call; the result records the
units whose invocation was attempted, and the final outcome. -/

/-- The per-repository loop: attempt each unit in order; stop at the first
invocation that raises. -/
def runUnits (invoke : WorkUnit → Except String Unit) :
    List WorkUnit → List WorkUnit × Except String Unit
  | [] => ([], Except.ok ())
  | u :: us =>
    match invoke u with
    | Except.ok _ => (u :: (runUnits invoke us).1, (runUnits invoke us).2)
    | Except.error e => ([u], Except.error e)

/-- Lines 63-94: setup (test discovery, `Repo(repo_path)`, branch setup)
precedes the loop; a setup failure raises before any unit is attempted. -/
def runWithSetup (setup : Except String Unit) (invoke : WorkUnit → Except String Unit)
    (units : List WorkUnit) : List WorkUnit × Except String Unit :=
  match setup with
  | Except.error e => ([], Except.error e)
  | Except.ok _ => runUnits invoke units

/-! ## Branch setup (run_agent.py lines 84-90) -/

/-- Git state visible to the orchestrator: branch-name-to-tip map and the
currently checked-out branch. -/
structure GitRepo where
  branchTip : String → Option String
  head : String

/-- Modelled from the spec: `create_branch` lives in `agent.commit0_utils`,
which is not under src/.  Spec 4.1: creates a branch named `run_id` off
`base_commit` if absent; the created or existing branch becomes the working
(checked-out) branch; an existing branch's tip is not moved here. -/
def create_branch (repo : GitRepo) (run_id base_commit : String) : GitRepo :=
  match repo.branchTip run_id with
  | some _ => { branchTip := repo.branchTip, head := run_id }
  | none =>
    { branchTip := fun n => if n = run_id then some base_commit else repo.branchTip n
      head := run_id }

/-- Git `local_repo.git.reset("--hard", commit)`: moves the tip of the
checked-out branch to `commit`. -/
def gitResetHard (repo : GitRepo) (commit : String) : GitRepo :=
  { branchTip := fun n => if n = repo.head then some commit else repo.branchTip n
    head := repo.head }

/-- Lines 84-90: `create_branch`, then look up the branch tip and hard-reset
to the base commit when they differ.  A failed lookup would raise in
`local_repo.commit(run_id)`; after `create_branch` the branch exists, so the
fall-through arm returns the state unchanged. -/
def branchSetup (repo : GitRepo) (run_id base_commit : String) : GitRepo :=
  let repo1 := create_branch repo run_id base_commit
  match repo1.branchTip run_id with
  | some tip => if tip ≠ base_commit then gitResetHard repo1 base_commit else repo1
  | none => repo1

/-- Observable events of one `run_agent_for_repo` execution, in program
order: branch setup completes (lines 84-90) before the loop starts
(line 98 / line 126). -/
inductive RunEvent where
  | branch_setup (run_id base_commit : String)
  | agent_invoke (u : WorkUnit)
deriving DecidableEq

/-- Event trace of one per-repository run: the branch-setup event, then one
invocation event per attempted unit, in order. -/
def repoRunTrace (run_id base_commit : String) (invoke : WorkUnit → Except String Unit)
    (units : List WorkUnit) : List RunEvent :=
  RunEvent.branch_setup run_id base_commit ::
    (runUnits invoke units).1.map RunEvent.agent_invoke

/-! ## Retry policy (agents.py lines 28-30)

`@retry(wait=wait_exponential(multiplier=1, min=4, max=10))` — tenacity with
no stop condition: retry every failure, waiting
`max(min_, min(multiplier * 2^(attempt_number - 1), max_))` seconds after the
failed attempt numbered `attempt_number` (1-based). -/

/-- tenacity `wait_exponential(multiplier, max=mx, min=mn)` evaluated after
the attempt numbered `attempt_number`. -/
def wait_exponential (multiplier mn mx attempt_number : Nat) : Nat :=
  max mn (min (multiplier * 2 ^ (attempt_number - 1)) mx)

/-- The decorated call's attempt loop: attempts are numbered from `n`;
`succeeds k` tells whether attempt `k` succeeds.  Returns the number of the
first successful attempt within `fuel` further attempts; `none` means the
unbounded retry loop is still running after `fuel` attempts. -/
def retryFirstSuccess (succeeds : Nat → Bool) : Nat → Nat → Option Nat
  | 0, _ => none
  | fuel + 1, n => if succeeds n then some n else retryFirstSuccess succeeds fuel (n + 1)

/-- Number of the attempt on which the decorated `AiderAgents.run` returns,
attempts starting at 1. -/
def retryAttempts (succeeds : Nat → Bool) (fuel : Nat) : Option Nat :=
  retryFirstSuccess succeeds fuel 1

/-- The delays slept between consecutive attempts of a terminating run:
after a run of `n` attempts, the waits follow failed attempts `1 .. n-1`. -/
def retryWaits (succeeds : Nat → Bool) (fuel : Nat) : List Nat :=
  match retryAttempts succeeds fuel with
  | some n => (List.range (n - 1)).map fun k => wait_exponential 1 4 10 (k + 1)
  | none => []

/-! ## Output redirection in AiderAgents.run (agents.py lines 66-67, 97, 100-104) -/

/-- A destination of the process streams `sys.stdout` / `sys.stderr`. -/
inductive Sink where
  /-- Streams `sys.__stdout__` / `sys.__stderr__`: the process's original streams. -/
  | original
  /-- Stream `open(os.devnull, "w")` installed by `run_agent` (line 162). -/
  | devnull
  /-- a log file opened in append mode. -/
  | logFile (path : String)
deriving DecidableEq

/-- The process-global stream state. -/
structure StreamState where
  stdout : Sink
  stderr : Sink
deriving DecidableEq

/-- Lines 66-67 redirect both streams to the work unit's log file; line 97
runs the wrapped agent call (outcome `coder`); on normal return, lines
100-104 close the log handles and set both streams to `sys.__stdout__` /
`sys.__stderr__`.  There is no try/finally: when `coder.run` raises, the
restore lines never execute. -/
def aiderRunStreams (_st : StreamState) (log_file : String) (coder : Except String Unit) :
    StreamState × Except String Unit :=
  let redirected : StreamState := { stdout := Sink.logFile log_file, stderr := Sink.logFile log_file }
  match coder with
  | Except.ok _ => ({ stdout := Sink.original, stderr := Sink.original }, Except.ok ())
  | Except.error e => (redirected, Except.error e)

/-! ## The baseline loop (run_aider.py lines 80-113) -/

/-- Outcome of the subprocess block (lines 91-112) for one test file. -/
inductive SubprocOutcome where
  /-- Calls `Popen` and `communicate` returned; output logged (lines 92-101). -/
  | completed (stdout stderr : String)
  /-- caught by the `CalledProcessError` arm (lines 102-105). -/
  | calledProcessError (returncode : Nat)
  /-- caught by the `OSError` arm (lines 107-112). -/
  | osError (errno : Nat)
  /-- any exception the two arms do not catch. -/
  | uncaught (e : String)
deriving DecidableEq

/-- Python exceptions distinguished by the embedding. -/
inductive PyErr where
  | nameError (name : String)
  | attributeError (attr : String)
  | valueError (msg : String)
  | notImplementedError (msg : String)
  | assertionError (msg : String)
  | uncaught (e : String)
deriving DecidableEq

/-- The body of the loop at line 80: launch one aider subprocess for the
test file (recorded), let the try/except arms log the modeled outcomes, and
then evaluate the undefined name `asdf` (line 113), which raises NameError.
Returns the launch attempts of the iteration and the exception it raises. -/
def aiderLoopBody (subproc : String → SubprocOutcome) (test_file : String) :
    List String × PyErr :=
  match subproc test_file with
  | SubprocOutcome.uncaught e => ([test_file], PyErr.uncaught e)
  | _ => ([test_file], PyErr.nameError "asdf")

/-- The loop at lines 80-113 of `run_aider_for_repo`: every iteration's body
raises, and nothing catches NameError, so the loop ends with the first
iteration's exception.  Returns all subprocess launches and the outcome. -/
def runAiderLoop (subproc : String → SubprocOutcome) :
    List String → List String × Except PyErr Unit
  | [] => ([], Except.ok ())
  | tf :: _ => ((aiderLoopBody subproc tf).1, Except.error (aiderLoopBody subproc tf).2)

/-! ## The dead None-check (run_agent.py lines 75-94) -/

/-- Control flow of `run_agent_for_repo` with respect to `agent_config`:
line 75 evaluates `agent_config.agent_name` (an attribute access, which on
`None` raises AttributeError); a non-"aider" name raises NotImplementedError
(lines 77-80); lines 93-94 then test `agent_config is None` and raise
ValueError("Invalid input") when it holds. -/
def agentConfigDispatch (agent_config : Option AgentConfig) : Except PyErr Unit :=
  match agent_config with
  | none => Except.error (PyErr.attributeError "agent_name")
  | some c =>
    if c.agent_name = "aider" then
      if (some c : Option AgentConfig).isNone then
        Except.error (PyErr.valueError "Invalid input")
      else Except.ok ()
    else Except.error (PyErr.notImplementedError c.agent_name)

/-! ## Fleet filtering (run_agent.py lines 147-159) -/

/-- One dataset record as the filter sees it: `repo` is `some s` when the
record is a dict with a string-valued "repo" field, else `none`. -/
structure DataRecord where
  repo : Option String
deriving DecidableEq

/-- Python `example["repo"].split("/")[-1]`: the trailing path segment — the
suffix after the last '/' (the whole string when it has no '/'). -/
def lastSegment (s : String) : String :=
  String.mk ((s.data.reverse.takeWhile (fun c => c != '/')).reverse)

/-- The comprehension's condition (lines 150-157): keep the record when the
selector is the literal "all", or when the record has a string "repo" field
whose trailing segment is in `SPLIT.get(repo_split, [])` (the subset map
`split_map`, defaulting to the empty list outside its domain). -/
def recordSelected (repo_split : String) (split_map : String → List String)
    (r : DataRecord) : Bool :=
  repo_split = "all" ||
    match r.repo with
    | some s => (split_map repo_split).contains (lastSegment s)
    | none => false

/-- Lines 147-158: the filtered dataset. -/
def filteredDataset (repo_split : String) (split_map : String → List String)
    (dataset : List DataRecord) : List DataRecord :=
  dataset.filter (recordSelected repo_split split_map)

/-- Lines 147-182: `assert len(filtered_dataset) > 0` (line 159) raises
AssertionError before any repository is dispatched; otherwise every filtered
record is dispatched to `run_agent_for_repo`. -/
def run_agent_dispatch (repo_split : String) (split_map : String → List String)
    (dataset : List DataRecord) : Except PyErr (List DataRecord) :=
  let fd := filteredDataset repo_split split_map dataset
  if fd.length > 0 then Except.ok fd
  else Except.error (PyErr.assertionError "No examples available")

/-! ## Helper lemmas -/

lemma sortedDedup_sorted (l : List String) : List.Sorted (· ≤ ·) (sortedDedup l) :=
  List.sorted_insertionSort _ _

lemma sortedDedup_nodup (l : List String) : (sortedDedup l).Nodup :=
  (List.perm_insertionSort _ _).nodup_iff.mpr l.nodup_dedup

lemma sortedDedup_mem (l : List String) (a : String) : a ∈ sortedDedup l ↔ a ∈ l :=
  (List.perm_insertionSort _ _).mem_iff.trans (List.mem_dedup)

lemma runUnits_ok (invoke : WorkUnit → Except String Unit) (us : List WorkUnit)
    (h : ∀ u ∈ us, invoke u = Except.ok ()) : runUnits invoke us = (us, Except.ok ()) := by
  induction us with
  | nil => rfl
  | cons u us ih =>
    have hu : invoke u = Except.ok () := h u (by simp)
    have ht : runUnits invoke us = (us, Except.ok ()) := ih fun v hv => h v (by simp [hv])
    simp [runUnits, hu, ht]

/-! ## C1 -/

/-- C1: in test-feedback mode the per-repository run performs one agent
invocation per distinct test-file path (identifier portion before the first
colon), iterating in sorted order without duplicates; in no-test mode it
performs one invocation per target-edit file in list order. -/
theorem c1_invocation_per_file (an mn : String) (mi : Nat) (ul : Bool)
    (msgT : String → String) (msgR lint rp rid : String) (targets ids : List String) :
    (plan ⟨an, mn, mi, true, ul⟩ msgT msgR lint rp rid targets ids).length
        = (test_files ids).length ∧
    (test_files ids).Nodup ∧
    List.Sorted (· ≤ ·) (test_files ids) ∧
    (∀ p, p ∈ test_files ids ↔ p ∈ ids.map testPath) ∧
    runUnits (fun _ => Except.ok ()) (plan ⟨an, mn, mi, true, ul⟩ msgT msgR lint rp rid targets ids)
        = (plan ⟨an, mn, mi, true, ul⟩ msgT msgR lint rp rid targets ids, Except.ok ()) ∧
    (plan ⟨an, mn, mi, false, ul⟩ msgT msgR lint rp rid targets ids).length = targets.length ∧
    runUnits (fun _ => Except.ok ()) (plan ⟨an, mn, mi, false, ul⟩ msgT msgR lint rp rid targets ids)
        = (plan ⟨an, mn, mi, false, ul⟩ msgT msgR lint rp rid targets ids, Except.ok ()) := by
  refine ⟨?_, sortedDedup_nodup _, sortedDedup_sorted _, fun p => sortedDedup_mem _ p,
    runUnits_ok _ _ (fun u _ => rfl), ?_, runUnits_ok _ _ (fun u _ => rfl)⟩
  · simp [plan, planWithTests]
  · simp [plan, planNoTests]

/-! ## C9 -/

/-- C9: every test-feedback-mode invocation receives the full
target-edit-file list, while each no-test-mode invocation receives exactly
the one-element list of the target file it was created for. -/
theorem c9_fnames_per_mode (msgT : String → String) (msgR lint rp rid : String)
    (targets ids : List String) :
    (planWithTests msgT lint rp rid targets ids).map WorkUnit.fnames
        = (test_files ids).map (fun _ => targets) ∧
    (planNoTests msgR lint targets).map WorkUnit.fnames = targets.map (fun f => [f]) := by
  constructor
  · simp only [planWithTests, List.map_map]
    rfl
  · simp only [planNoTests, List.map_map]
    rfl

/-! ## C10 -/

/-- C10: the ValueError("Invalid input") branch of `run_agent_for_repo` is
dead: a `None` config raises AttributeError at the first attribute access,
so no execution reaching the `is None` check can take it. -/
theorem c10_none_check_dead (agent_config : Option AgentConfig) :
    agentConfigDispatch agent_config ≠ Except.error (PyErr.valueError "Invalid input") := by
  cases agent_config with
  | none => simp [agentConfigDispatch]
  | some c =>
    by_cases h : c.agent_name = "aider" <;> simp [agentConfigDispatch, h]

/-- Witness for C10 at a concrete configuration. -/
theorem c10_none_check_dead_witness :
    agentConfigDispatch (some ⟨"aider", "gpt-4o", 5, true, false⟩)
      ≠ Except.error (PyErr.valueError "Invalid input") :=
  c10_none_check_dead (some ⟨"aider", "gpt-4o", 5, true, false⟩)

/-! ## C2 -/

lemma branchSetup_tip (repo : GitRepo) (rid base : String) :
    (branchSetup repo rid base).branchTip rid = some base := by
  unfold branchSetup create_branch
  cases h : repo.branchTip rid with
  | some t =>
    by_cases ht : t = base
    · simp [h, ht]
    · simp [h, ht, gitResetHard]
  | none => simp [h, gitResetHard]

/-- C2: after branch setup (`create_branch` plus the conditional hard
reset), the tip of the branch named by the run id equals the declared base
commit, whatever state the branch was in before; running setup twice leaves
the tip at the base commit both times; and in the per-repository trace the
branch-setup event precedes every agent-invocation event. -/
theorem c2_branch_setup_idempotent (repo : GitRepo) (rid base : String)
    (invoke : WorkUnit → Except String Unit) (units : List WorkUnit) :
    (branchSetup repo rid base).branchTip rid = some base ∧
    (branchSetup (branchSetup repo rid base) rid base).branchTip rid = some base ∧
    (repoRunTrace rid base invoke units).head? = some (RunEvent.branch_setup rid base) ∧
    (∀ i u, (repoRunTrace rid base invoke units)[i]? = some (RunEvent.agent_invoke u) → 0 < i) := by
  refine ⟨branchSetup_tip repo rid base, branchSetup_tip _ rid base, rfl, ?_⟩
  intro i u h
  cases i with
  | zero => simp [repoRunTrace] at h
  | succ n => omega

/-- Witness for C2: a stale branch named "agent-run" pointing at "stale" is
reset to "base0", and the first trace event is the setup event. -/
theorem c2_branch_setup_idempotent_witness :
    (branchSetup
        { branchTip := fun n => if n = "agent-run" then some "stale" else none, head := "main" }
        "agent-run" "base0").branchTip "agent-run" = some "base0" ∧
    0 < 1 :=
  ⟨(c2_branch_setup_idempotent
      { branchTip := fun n => if n = "agent-run" then some "stale" else none, head := "main" }
      "agent-run" "base0" (fun _ => Except.ok ())
      [{ message := "m", test_cmd := "", lint_cmd := "", fnames := ["a.py"],
         log_dir := ["run_aider", "no_tests", "a"] }]).1,
    (c2_branch_setup_idempotent
      { branchTip := fun n => if n = "agent-run" then some "stale" else none, head := "main" }
      "agent-run" "base0" (fun _ => Except.ok ())
      [{ message := "m", test_cmd := "", lint_cmd := "", fnames := ["a.py"],
         log_dir := ["run_aider", "no_tests", "a"] }]).2.2.2 1
      { message := "m", test_cmd := "", lint_cmd := "", fnames := ["a.py"],
        log_dir := ["run_aider", "no_tests", "a"] } (by decide)⟩

/-! ## C3 -/

/-- C3 counterexample: in no-test mode, an agent invocation that raises on
the first target-edit file stops the loop, so the second file's invocation
is never attempted — contradicting the claim that it still is. -/
theorem c3_counterexample :
    (runUnits
        (fun u => if u.fnames = ["a.py"] then Except.error "agent failure" else Except.ok ())
        (planNoTests "msg" "" ["a.py", "b.py"])).1
      = [{ message := "msg", test_cmd := "", lint_cmd := "", fnames := ["a.py"],
           log_dir := ["run_aider", "no_tests", "a"] }] ∧
    ({ message := "msg", test_cmd := "", lint_cmd := "", fnames := ["b.py"],
       log_dir := ["run_aider", "no_tests", "b"] } : WorkUnit)
        ∈ planNoTests "msg" "" ["a.py", "b.py"] ∧
    ({ message := "msg", test_cmd := "", lint_cmd := "", fnames := ["b.py"],
       log_dir := ["run_aider", "no_tests", "b"] } : WorkUnit)
        ∉ (runUnits
            (fun u => if u.fnames = ["a.py"] then Except.error "agent failure" else Except.ok ())
            (planNoTests "msg" "" ["a.py", "b.py"])).1 := by
  decide

lemma runUnits_attempted_iff (invoke : WorkUnit → Except String Unit) :
    ∀ (units : List WorkUnit) (k : Nat), k < units.length →
      (k < (runUnits invoke units).1.length ↔
        ∀ i u, i < k → units[i]? = some u → invoke u = Except.ok ()) := by
  intro units
  induction units with
  | nil => intro k hk; simp at hk
  | cons u us ih =>
    intro k hk
    cases hu : invoke u with
    | error e =>
      simp only [runUnits, hu]
      cases k with
      | zero => simp
      | succ n =>
        constructor
        · intro hlt
          exact absurd hlt (by simp)
        · intro hall
          have h0 := hall 0 u (by omega) (by simp)
          rw [hu] at h0
          simp at h0
    | ok v =>
      simp only [runUnits, hu]
      cases k with
      | zero => simp
      | succ n =>
        have hn : n < us.length := by simpa using hk
        have := ih n hn
        simp only [List.length_cons]
        constructor
        · intro hlt i w hi hw
          cases i with
          | zero =>
            simp at hw
            rw [← hw]
            exact hu
          | succ j =>
            exact this.mp (by omega) j w (by omega) (by simpa using hw)
        · intro hall
          have : n < (runUnits invoke us).1.length := by
            refine this.mpr fun i w hi hw => hall (i + 1) w (by omega) (by simpa using hw)
          omega

lemma runUnits_attempted_take (invoke : WorkUnit → Except String Unit) :
    ∀ units : List WorkUnit, ∃ k, k ≤ units.length ∧ (runUnits invoke units).1 = units.take k := by
  intro units
  induction units with
  | nil => exact ⟨0, by simp, rfl⟩
  | cons u us ih =>
    cases hu : invoke u with
    | error e => exact ⟨1, by simp, by simp [runUnits, hu]⟩
    | ok v =>
      obtain ⟨k, hk, htake⟩ := ih
      exact ⟨k + 1, by simpa using hk, by simp [runUnits, hu, htake]⟩

/-- C3 amended: in no-test mode the work units are attempted sequentially
and the attempted units always form an initial segment of the planned list;
the (k+1)-th unit is attempted exactly when the invocations of all earlier
units succeeded (so a raising invocation on unit k prevents unit k+1, while
a succeeding one does not); and a setup-level failure (branch setup or test
discovery) yields zero attempted work units. -/
theorem c3_failure_halts_loop (invoke : WorkUnit → Except String Unit)
    (setup : Except String Unit) (units : List WorkUnit) :
    (∃ k, k ≤ units.length ∧ (runUnits invoke units).1 = units.take k) ∧
    (∀ k, k < units.length →
      (k < (runUnits invoke units).1.length ↔
        ∀ i u, i < k → units[i]? = some u → invoke u = Except.ok ())) ∧
    (∀ e, setup = Except.error e → runWithSetup setup invoke units = ([], Except.error e)) := by
  refine ⟨runUnits_attempted_take invoke units, runUnits_attempted_iff invoke units, ?_⟩
  intro e he
  simp [runWithSetup, he]

/-- Witness for C3 amended: with an invocation failing on the first of two
planned units, exactly the first unit is attempted, and a setup error yields
zero attempted units. -/
theorem c3_failure_halts_loop_witness :
    (∃ k, k ≤ (planNoTests "msg" "" ["a.py", "b.py"]).length ∧
      (runUnits (fun _ => Except.error "agent failure")
          (planNoTests "msg" "" ["a.py", "b.py"])).1
        = (planNoTests "msg" "" ["a.py", "b.py"]).take k) ∧
    (1 < (runUnits (fun _ => Except.error "agent failure")
          (planNoTests "msg" "" ["a.py", "b.py"])).1.length ↔
      ∀ i u, i < 1 → (planNoTests "msg" "" ["a.py", "b.py"])[i]? = some u →
        (fun _ => Except.error "agent failure") u = Except.ok ()) ∧
    runWithSetup (Except.error "not a git repo") (fun _ => Except.error "agent failure")
        (planNoTests "msg" "" ["a.py", "b.py"])
      = ([], Except.error "not a git repo") :=
  ⟨(c3_failure_halts_loop (fun _ => Except.error "agent failure")
      (Except.error "not a git repo") (planNoTests "msg" "" ["a.py", "b.py"])).1,
   (c3_failure_halts_loop (fun _ => Except.error "agent failure")
      (Except.error "not a git repo") (planNoTests "msg" "" ["a.py", "b.py"])).2.1 1 (by decide),
   (c3_failure_halts_loop (fun _ => Except.error "agent failure")
      (Except.error "not a git repo") (planNoTests "msg" "" ["a.py", "b.py"])).2.2
      "not a git repo" rfl⟩

/-! ## C4 -/

lemma retryFirstSuccess_eq (s : Nat → Bool) :
    ∀ (fuel k m : Nat), k ≤ m → m < k + fuel → s m = true →
      (∀ j, k ≤ j → j < m → s j = false) →
      retryFirstSuccess s fuel k = some m := by
  intro fuel
  induction fuel with
  | zero => intro k m h1 h2 _ _; omega
  | succ fuel ih =>
    intro k m h1 h2 h3 h4
    by_cases hk : k = m
    · subst hk
      simp [retryFirstSuccess, h3]
    · have hs : s k = false := h4 k (le_refl k) (by omega)
      simp only [retryFirstSuccess, hs, Bool.false_eq_true, if_false]
      exact ih (k + 1) m (by omega) (by omega) h3 fun j hj1 hj2 => h4 j (by omega) hj2

/-- C4 counterexample: for an invocation failing on attempts 1 and 2 and
succeeding on attempt 3, the decorated call does return on attempt 3, but
the two delays slept in between are both 4 seconds — the delay sequence is
not strictly increasing, contrary to the claim. -/
theorem c4_counterexample :
    retryAttempts (fun n => n == 3) 10 = some 3 ∧
    retryWaits (fun n => n == 3) 10 = [4, 4] ∧
    ¬ List.Chain' (· < ·) (retryWaits (fun n => n == 3) 10) := by
  refine ⟨by decide, by decide, ?_⟩
  have h : retryWaits (fun n => n == 3) 10 = [4, 4] := by decide
  rw [h]
  simp [List.chain'_cons]

/-- C4 amended: an invocation failing on the first two attempts and
succeeding on the third returns success after exactly three attempts; the
delays between consecutive attempts are 4 then 4 — non-decreasing (not
strictly increasing), each clipped between the base delay 4 and the cap 10;
and the policy puts no upper bound on the attempt count: for every `N`
there is a failure pattern making the loop run `N + 1` attempts. -/
theorem c4_retry_backoff (succeeds : Nat → Bool) (fuel : Nat)
    (h1 : succeeds 1 = false) (h2 : succeeds 2 = false) (h3 : succeeds 3 = true)
    (hf : 3 ≤ fuel) :
    retryAttempts succeeds fuel = some 3 ∧
    retryWaits succeeds fuel = [4, 4] ∧
    (∀ n, wait_exponential 1 4 10 n ≤ wait_exponential 1 4 10 (n + 1)) ∧
    (∀ n, 4 ≤ wait_exponential 1 4 10 n ∧ wait_exponential 1 4 10 n ≤ 10) ∧
    (∀ N, retryAttempts (fun n => n == N + 1) (N + 1) = some (N + 1)) := by
  have hone : ∀ j, 1 ≤ j → j < 3 → succeeds j = false := by
    intro j hj1 hj3
    interval_cases j
    · exact h1
    · exact h2
  have hattempts : retryAttempts succeeds fuel = some 3 :=
    retryFirstSuccess_eq succeeds fuel 1 3 (by omega) (by omega) h3 hone
  refine ⟨hattempts, ?_, ?_, ?_, ?_⟩
  · simp only [retryWaits, hattempts]
    decide
  · intro n
    have hpow : 2 ^ (n - 1) ≤ 2 ^ (n + 1 - 1) :=
      Nat.pow_le_pow_right (by norm_num) (by omega)
    simp only [wait_exponential, one_mul]
    exact max_le_max (le_refl 4) (min_le_min hpow (le_refl 10))
  · intro n
    simp only [wait_exponential, one_mul]
    exact ⟨le_max_left _ _, max_le (by norm_num) (min_le_right _ _)⟩
  · intro N
    refine retryFirstSuccess_eq _ (N + 1) 1 (N + 1) (by omega) (by omega) (by simp) ?_
    intro j hj1 hj2
    simp only [beq_eq_false_iff_ne, ne_eq]
    omega

/-- Witness for C4 amended at the concrete fail-fail-succeed pattern. -/
theorem c4_retry_backoff_witness :
    retryAttempts (fun n => n == 3) 12 = some 3 ∧
    retryWaits (fun n => n == 3) 12 = [4, 4] ∧
    (∀ n, wait_exponential 1 4 10 n ≤ wait_exponential 1 4 10 (n + 1)) ∧
    (∀ n, 4 ≤ wait_exponential 1 4 10 n ∧ wait_exponential 1 4 10 n ≤ 10) ∧
    (∀ N, retryAttempts (fun n => n == N + 1) (N + 1) = some (N + 1)) :=
  c4_retry_backoff (fun n => n == 3) 12 (by decide) (by decide) (by decide) (by decide)

/-! ## C5 -/

lemma stripPy_cons (c : Char) (l : List Char) (hc : c ≠ '.') :
    stripPy (c :: l) = c :: stripPy l := by
  cases l with
  | nil => simp [stripPy]
  | cons p l2 =>
    cases l2 with
    | nil => simp [stripPy]
    | cons y l3 => simp [stripPy, hc]

lemma stripPy_append (s r : List Char) (hs : '.' ∉ s) :
    stripPy (s ++ r) = s ++ stripPy r := by
  induction s with
  | nil => simp
  | cons c s ih =>
    simp only [List.mem_cons, not_or] at hs
    rw [List.cons_append, stripPy_cons c (s ++ r) (fun h => hs.1 h.symm), ih hs.2,
      List.cons_append]

lemma slashSub_ne_nil (c : Char) (l : List Char) : slashSub (c :: l) ≠ [] := by
  by_cases hc : c = '/' <;> simp [slashSub, hc]

lemma slashSub_inj : ∀ (s t : List Char), '_' ∉ s → '_' ∉ t →
    slashSub s = slashSub t → s = t := by
  intro s
  induction s with
  | nil =>
    intro t _ _ h
    cases t with
    | nil => rfl
    | cons d t2 => exact absurd h.symm (slashSub_ne_nil d t2)
  | cons c s ih =>
    intro t hs ht h
    cases t with
    | nil => exact absurd h (slashSub_ne_nil c s)
    | cons d t2 =>
      simp only [List.mem_cons, not_or] at hs ht
      by_cases hc : c = '/' <;> by_cases hd : d = '/'
      · subst hc hd
        simp [slashSub] at h
        rw [ih t2 hs.2 ht.2 h]
      · rw [slashSub, if_pos hc, slashSub, if_neg hd] at h
        simp only [List.cons.injEq] at h
        exact absurd h.1 ht.1
      · rw [slashSub, if_neg hc, slashSub, if_pos hd] at h
        simp only [List.cons.injEq] at h
        exact absurd h.1.symm hs.1
      · rw [slashSub, if_neg hc, slashSub, if_neg hd] at h
        simp only [List.cons.injEq] at h
        rw [h.1, ih t2 hs.2 ht.2 h.2]

/-- C5 counterexample: the distinct file names "a/b.py" and "a__b.py" derive
the same log name "a__b", hence the same log directory - the
name-to-log-directory mapping is not injective on distinct names. -/
theorem c5_counterexample :
    logName "a/b.py" = logName "a__b.py" ∧
    ("a/b.py" : String) ≠ "a__b.py" ∧
    RUN_AIDER_LOG_DIR ++ ["with_tests", logName "a/b.py"]
      = RUN_AIDER_LOG_DIR ++ ["with_tests", logName "a__b.py"] := by
  decide

/-- C5 amended: the name-to-log-directory mapping is not injective in
general (see the counterexample), but it is injective on names of the form
`stem.py` whose stem contains no '.' and no '_' character: for two distinct
such names the derived log names, and hence the log-directory paths, are
distinct, even when the stems contain path separators. -/
theorem c5_log_dir_distinct (s t : List Char)
    (hs1 : '.' ∉ s) (ht1 : '.' ∉ t) (hs2 : '_' ∉ s) (ht2 : '_' ∉ t)
    (hne : s ≠ t) :
    logName (String.mk (s ++ ['.', 'p', 'y'])) ≠ logName (String.mk (t ++ ['.', 'p', 'y'])) ∧
    RUN_AIDER_LOG_DIR ++ ["with_tests", logName (String.mk (s ++ ['.', 'p', 'y']))]
      ≠ RUN_AIDER_LOG_DIR ++ ["with_tests", logName (String.mk (t ++ ['.', 'p', 'y']))] := by
  have hstrip : ∀ u : List Char, '.' ∉ u →
      stripPy (u ++ ['.', 'p', 'y']) = u := by
    intro u hu
    rw [stripPy_append u ['.', 'p', 'y'] hu]
    simp [stripPy]
  have hmain : logName (String.mk (s ++ ['.', 'p', 'y']))
      ≠ logName (String.mk (t ++ ['.', 'p', 'y'])) := by
    intro h
    simp only [logName, hstrip s hs1, hstrip t ht1] at h
    have hdata : slashSub s = slashSub t := congrArg String.data h
    exact hne (slashSub_inj s t hs2 ht2 hdata)
  exact ⟨hmain, by simpa using hmain⟩

/-- Witness for C5 amended: "a/b.py" and "c.py" derive distinct log
directories. -/
theorem c5_log_dir_distinct_witness :
    logName (String.mk (['a', '/', 'b'] ++ ['.', 'p', 'y']))
      ≠ logName (String.mk (['c'] ++ ['.', 'p', 'y'])) ∧
    RUN_AIDER_LOG_DIR ++ ["with_tests", logName (String.mk (['a', '/', 'b'] ++ ['.', 'p', 'y']))]
      ≠ RUN_AIDER_LOG_DIR ++ ["with_tests", logName (String.mk (['c'] ++ ['.', 'p', 'y']))] :=
  c5_log_dir_distinct ['a', '/', 'b'] ['c'] (by decide) (by decide) (by decide) (by decide)
    (by decide)

/-! ## C6 -/

lemma recordSelected_iff (repo_split : String) (split_map : String → List String)
    (r : DataRecord) :
    recordSelected repo_split split_map r = true ↔
      repo_split = "all" ∨ ∃ s, r.repo = some s ∧ lastSegment s ∈ split_map repo_split := by
  obtain ⟨ro⟩ := r
  cases ro with
  | none => simp [recordSelected]
  | some s =>
    have hc : ((split_map repo_split).contains (lastSegment s) = true)
        ↔ lastSegment s ∈ split_map repo_split := by
      simp [List.contains]
    simp only [recordSelected, Bool.or_eq_true, beq_iff_eq, decide_eq_true_eq]
    constructor
    · rintro (h | h)
      · exact Or.inl h
      · exact Or.inr ⟨s, rfl, hc.mp h⟩
    · rintro (h | ⟨s2, hs2, hmem⟩)
      · exact Or.inl h
      · injection hs2 with hss
        subst hss
        exact Or.inr (hc.mpr hmem)

/-- C6: `run_agent` dispatches a per-repository run for exactly the dataset
records whose "repo" field's trailing path segment is in the configured
subset (every record when the selector is the literal "all"), and raises the
fatal assertion "No examples available" before dispatching anything exactly
when the filtered set is empty. -/
theorem c6_fleet_filter (repo_split : String) (split_map : String → List String)
    (dataset : List DataRecord) :
    (∀ r, r ∈ filteredDataset repo_split split_map dataset ↔
      r ∈ dataset ∧ (repo_split = "all" ∨
        ∃ s, r.repo = some s ∧ lastSegment s ∈ split_map repo_split)) ∧
    (repo_split = "all" → filteredDataset repo_split split_map dataset = dataset) ∧
    (∀ ds, run_agent_dispatch repo_split split_map dataset = Except.ok ds →
      ds = filteredDataset repo_split split_map dataset) ∧
    (run_agent_dispatch repo_split split_map dataset
        = Except.error (PyErr.assertionError "No examples available") ↔
      filteredDataset repo_split split_map dataset = []) := by
  refine ⟨?_, ?_, ?_, ?_⟩
  · intro r
    rw [filteredDataset, List.mem_filter, recordSelected_iff]
  · intro hall
    subst hall
    simp [filteredDataset, recordSelected]
  · intro ds hds
    simp only [run_agent_dispatch] at hds
    by_cases hlen : (filteredDataset repo_split split_map dataset).length > 0
    · rw [if_pos hlen] at hds
      injection hds with h
      exact h.symm
    · rw [if_neg hlen] at hds
      exact absurd hds (by simp)
  · simp only [run_agent_dispatch]
    by_cases hlen : (filteredDataset repo_split split_map dataset).length > 0
    · rw [if_pos hlen]
      constructor
      · intro h
        exact absurd h (by simp)
      · intro h
        rw [h] at hlen
        simp at hlen
    · rw [if_neg hlen]
      simp only [true_iff]
      exact List.length_eq_zero.mp (by omega)

/-- Witness for C6 at a concrete dataset, subset map and selector. -/
theorem c6_fleet_filter_witness :
    (DataRecord.mk (some "org/repo1")
        ∈ filteredDataset "lite" (fun _ => ["repo1"])
            [DataRecord.mk (some "org/repo1"), DataRecord.mk (some "org/repo2")] ↔
      DataRecord.mk (some "org/repo1")
          ∈ [DataRecord.mk (some "org/repo1"), DataRecord.mk (some "org/repo2")] ∧
        ("lite" = "all" ∨ ∃ s, (DataRecord.mk (some "org/repo1")).repo = some s ∧
          lastSegment s ∈ ["repo1"])) ∧
    filteredDataset "all" (fun _ => ["repo1"])
        [DataRecord.mk (some "org/repo1"), DataRecord.mk (some "org/repo2")]
      = [DataRecord.mk (some "org/repo1"), DataRecord.mk (some "org/repo2")] ∧
    [DataRecord.mk (some "org/repo1")]
      = filteredDataset "lite" (fun _ => ["repo1"])
          [DataRecord.mk (some "org/repo1"), DataRecord.mk (some "org/repo2")] :=
  ⟨(c6_fleet_filter "lite" (fun _ => ["repo1"])
      [DataRecord.mk (some "org/repo1"), DataRecord.mk (some "org/repo2")]).1
      (DataRecord.mk (some "org/repo1")),
   (c6_fleet_filter "all" (fun _ => ["repo1"])
      [DataRecord.mk (some "org/repo1"), DataRecord.mk (some "org/repo2")]).2.1 rfl,
   (c6_fleet_filter "lite" (fun _ => ["repo1"])
      [DataRecord.mk (some "org/repo1"), DataRecord.mk (some "org/repo2")]).2.2.1
      [DataRecord.mk (some "org/repo1")] (by rfl)⟩

/-! ## C7 -/

/-- C7 counterexample: when the wrapped agent call raises, the streams stay
redirected at the log file instead of being restored; and even on success
they are set to the process-original streams, which differ from the
destination in effect immediately before the invocation whenever that
destination was not the original one (here: devnull, as installed by
`run_agent` for multi-repository fleets). -/
theorem c7_counterexample :
    (aiderRunStreams { stdout := Sink.original, stderr := Sink.original } "aider.log"
        (Except.error "agent crash")).1.stdout = Sink.logFile "aider.log" ∧
    Sink.logFile "aider.log" ≠ Sink.original ∧
    (aiderRunStreams { stdout := Sink.devnull, stderr := Sink.devnull } "aider.log"
        (Except.ok ())).1.stdout = Sink.original ∧
    Sink.original ≠ Sink.devnull := by
  decide

/-- C7 amended: `AiderAgents.run` redirects stdout and stderr to the work
unit's log file for the duration of the call; on successful return it sets
both streams to the process-original `sys.__stdout__` / `sys.__stderr__`
(not the destination in effect immediately before the invocation), and when
the wrapped call raises there is no restore at all - both streams remain
pointed at the log file. -/
theorem c7_stream_restore (st : StreamState) (log_file : String)
    (coder : Except String Unit) :
    (coder = Except.ok () →
      (aiderRunStreams st log_file coder).1
        = { stdout := Sink.original, stderr := Sink.original }) ∧
    (∀ e, coder = Except.error e →
      (aiderRunStreams st log_file coder).1
        = { stdout := Sink.logFile log_file, stderr := Sink.logFile log_file }) ∧
    (aiderRunStreams st log_file coder).2 = coder := by
  refine ⟨?_, ?_, ?_⟩
  · intro h
    rw [h]
    rfl
  · intro e h
    rw [h]
    rfl
  · cases coder with
    | ok v => rfl
    | error e => rfl

/-- Witness for C7 amended at concrete stream states and outcomes. -/
theorem c7_stream_restore_witness :
    (aiderRunStreams { stdout := Sink.devnull, stderr := Sink.devnull } "aider.log"
        (Except.ok ())).1 = { stdout := Sink.original, stderr := Sink.original } ∧
    (aiderRunStreams { stdout := Sink.devnull, stderr := Sink.devnull } "aider.log"
        (Except.error "agent crash")).1
      = { stdout := Sink.logFile "aider.log", stderr := Sink.logFile "aider.log" } :=
  ⟨(c7_stream_restore { stdout := Sink.devnull, stderr := Sink.devnull } "aider.log"
      (Except.ok ())).1 rfl,
   (c7_stream_restore { stdout := Sink.devnull, stderr := Sink.devnull } "aider.log"
      (Except.error "agent crash")).2.1 "agent crash" rfl⟩

/-! ## C8 -/

/-- C8: in `run_aider_for_repo` (src/baselines/run_aider.py), whenever the
test-file list is non-empty and the subprocess block raises nothing the
try/except arms fail to catch, the bare name `asdf` at the end of the first
loop iteration raises NameError: exactly one aider subprocess is launched
and the function never returns normally. -/
theorem c8_baseline_name_error (subproc : String → SubprocOutcome) (ids : List String)
    (hne : test_files ids ≠ [])
    (hs : ∀ f e, subproc f ≠ SubprocOutcome.uncaught e) :
    (∃ f rest, test_files ids = f :: rest ∧
      runAiderLoop subproc (test_files ids)
        = ([f], Except.error (PyErr.nameError "asdf"))) ∧
    (runAiderLoop subproc (test_files ids)).1.length ≤ 1 := by
  cases h : test_files ids with
  | nil => exact absurd h hne
  | cons f rest =>
    have hbody : aiderLoopBody subproc f = ([f], PyErr.nameError "asdf") := by
      cases hsf : subproc f with
      | uncaught e => exact absurd hsf (hs f e)
      | completed o r => simp [aiderLoopBody, hsf]
      | calledProcessError rc => simp [aiderLoopBody, hsf]
      | osError errno => simp [aiderLoopBody, hsf]
    refine ⟨⟨f, rest, rfl, ?_⟩, ?_⟩
    · simp [runAiderLoop, hbody]
    · simp [runAiderLoop, hbody]

/-- Witness for C8: a repository with test identifiers "tests/t.py:a" and
"tests/t.py:b" launches exactly one subprocess and dies with NameError. -/
theorem c8_baseline_name_error_witness :
    (∃ f rest, test_files ["tests/t.py:a", "tests/t.py:b"] = f :: rest ∧
      runAiderLoop (fun _ => SubprocOutcome.completed "" "")
          (test_files ["tests/t.py:a", "tests/t.py:b"])
        = ([f], Except.error (PyErr.nameError "asdf"))) ∧
    (runAiderLoop (fun _ => SubprocOutcome.completed "" "")
        (test_files ["tests/t.py:a", "tests/t.py:b"])).1.length ≤ 1 :=
  c8_baseline_name_error (fun _ => SubprocOutcome.completed "" "")
    ["tests/t.py:a", "tests/t.py:b"] (by decide) (fun f e => by simp)

end Commit0
